import Mathlib

/-!
Verification of `src/data/output/bulk_upload_liberia_wpm.py`, a bulk-upload
driver that pushes tabular records into a registry API with token refresh,
bounded retry, outcome classification and an append-only progress log.

The embedding models the script's pure logic directly; the external world
(HTTP responses, exceptions, clock) is an oracle of per-attempt events.
Strings manipulated by the log parser are modelled as `List Char` so that
Python's `line.strip().split('|')` can be embedded character by character.
-/

set_option maxRecDepth 65536

namespace BulkUpload

/-! ## String utilities shared by the embedding -/

/-- Does the first list start with the second? -/
def charsStartWith : List Char → List Char → Bool
  | _, [] => true
  | [], _ :: _ => false
  | a :: h, b :: n => a = b && charsStartWith h n

/-- Substring occurrence on character lists. -/
def charsContain (haystack needle : List Char) : Bool :=
  match haystack with
  | [] => needle.isEmpty
  | _ :: t => charsStartWith haystack needle || charsContain t needle

/-- Python `needle in haystack`. -/
def strContains (haystack needle : String) : Bool :=
  charsContain haystack.data needle.data

/-- Python `str.lower()` (ASCII letters). -/
def pyLower (s : String) : String :=
  String.mk (s.data.map Char.toLower)

/-- Python whitespace stripped by `str.strip()` (ASCII subset). -/
def wsChar (c : Char) : Bool :=
  c = ' ' || c = '\t' || c = '\n' || c = '\r' || c = '\x0b' || c = '\x0c'

/-- Python `str.strip()`: drop whitespace from both ends. -/
def pyStrip (l : List Char) : List Char :=
  ((l.dropWhile wsChar).reverse.dropWhile wsChar).reverse

/-- Python `str.split(sep)` for a single-character separator. -/
def splitOnChar (sep : Char) : List Char → List (List Char)
  | [] => [[]]
  | c :: cs =>
    if c = sep then [] :: splitOnChar sep cs
    else
      match splitOnChar sep cs with
      | [] => [[c]]
      | p :: ps => (c :: p) :: ps

/-- `line.strip().split('|')` — how every log reader tokenises a line. -/
def lineParts (l : List Char) : List (List Char) :=
  splitOnChar '|' (pyStrip l)

/-- The file's lines, as Python's line iteration sees them
(each yielded line is subsequently `strip`ped by the readers). -/
def fileLines (file : List Char) : List (List Char) :=
  splitOnChar '\n' file

def kSUCCESS : List Char := "SUCCESS".data
def kDUPLICATE : List Char := "DUPLICATE".data
def kFAILED : List Char := "FAILED".data

/-! ## Upload engine: `upload_facility`

One attempt of `upload_facility` interacts with the world through
`get_auth_headers` (which may raise when the token exchange fails),
`requests.post` (which may time out, raise, or return a response), JSON
extraction of the created `osid` (which may raise `KeyError`), and the
follow-up fetch.  An `AttemptEvent` records what the world does on one
attempt; the environment maps the attempt's `retry_count` to its event. -/

/-- The opaque request payload built by `row_to_facility`. -/
structure Facility where
  json : String
deriving DecidableEq, Repr

/-- Behaviour of the follow-up `GET /WaterFacility/{osid}`. -/
inductive FetchEvent where
  /-- the GET raises `requests.exceptions.Timeout` -/
  | timeout
  /-- the GET (or its `.json()`) raises some other exception with this message -/
  | err (msg : String)
  /-- the GET returns a response; `wfId` is `fetch_response.json().get('wfId')` -/
  | resp (status : Nat) (wfId : Option String)
deriving DecidableEq, Repr

/-- Behaviour of the world on one attempt of `upload_facility`. -/
inductive AttemptEvent where
  /-- `get_auth_headers` raises because the token exchange failed -/
  | authFail
  /-- `requests.post` raises `requests.exceptions.Timeout` -/
  | postTimeout
  /-- `requests.post` raises some other exception with this message -/
  | postErr (msg : String)
  /-- the POST returns a response: status, `response.text`,
  `str(response.json())` when the body parses as JSON (else `none`), the
  result of extracting `result['result']['WaterFacility']['osid']`
  (`.error` = the raised exception's message), and the follow-up fetch -/
  | postResp (status : Nat) (text : String) (jsonStr : Option String)
      (osid : Except String String) (fetch : FetchEvent)
deriving Repr

/-- The dict returned by `upload_facility`; absent keys are `none`
(matching `result.get('osid')` / `result.get('wfId')` in the caller). -/
structure UploadResult where
  status : String
  message : String
  osid : Option String
  wfId : Option String
deriving DecidableEq, Repr

def failedR (m : String) : UploadResult :=
  { status := "FAILED", message := m, osid := none, wfId := none }

def duplicateR (m : String) : UploadResult :=
  { status := "DUPLICATE", message := m, osid := none, wfId := none }

/-- Result of one call to `upload_facility` together with the observable
side effects: how many forced token refreshes (`TOKEN_DATA['expires_at'] = 0`
followed by a refresh in the next attempt's `get_auth_headers`) and how many
timeout-retries were taken. -/
structure SubmitTrace where
  res : UploadResult
  refreshes : Nat
  timeoutRetries : Nat
deriving DecidableEq, Repr

def max_retries : Nat := 3

/-- Core recursion of `upload_facility`.  The Python function recurses with
`retry_count + 1` whenever `retry_count < max_retries`; `fuel` is kept equal
to `max_retries - retry_count`, so the guard `retry_count < max_retries`
is exactly `fuel ≠ 0` and the recursion is structural. -/
def upload_facility_go (env : Nat → AttemptEvent) (facility : Facility)
    (retry_count : Nat) (fuel : Nat) : SubmitTrace :=
    match env retry_count with
    | .authFail =>
      -- `raise Exception("Failed to obtain access token")`, caught by the
      -- final `except Exception as e: return FAILED str(e)[:200]`
      ⟨failedR ("Failed to obtain access token".take 200), 0, 0⟩
    | .postTimeout =>
      match fuel with
      | fuel' + 1 =>
        let t := upload_facility_go env facility (retry_count + 1) fuel'
        ⟨t.res, t.refreshes, t.timeoutRetries + 1⟩
      | 0 => ⟨failedR "Timeout after retries", 0, 0⟩
    | .postErr m => ⟨failedR (m.take 200), 0, 0⟩
    | .postResp status text jsonStr osid fetch =>
      if status = 200 then
        match osid with
        | .error m => ⟨failedR (m.take 200), 0, 0⟩
        | .ok osidV =>
          match fetch with
          | .timeout =>
            match fuel with
            | fuel' + 1 =>
              let t := upload_facility_go env facility (retry_count + 1) fuel'
              ⟨t.res, t.refreshes, t.timeoutRetries + 1⟩
            | 0 => ⟨failedR "Timeout after retries", 0, 0⟩
          | .err m => ⟨failedR (m.take 200), 0, 0⟩
          | .resp fstatus wf =>
            ⟨{ status := "SUCCESS", message := "Created", osid := some osidV,
               wfId := if fstatus = 200 then wf else none }, 0, 0⟩
      else if status = 401 then
        match fuel with
        | fuel' + 1 =>
          -- `TOKEN_DATA["expires_at"] = 0` forces a token refresh on the
          -- next attempt's `get_auth_headers`
          let t := upload_facility_go env facility (retry_count + 1) fuel'
          ⟨t.res, t.refreshes + 1, t.timeoutRetries⟩
        | 0 =>
          ⟨failedR ("Auth failed after " ++ toString max_retries ++ " retries"),
            0, 0⟩
      else if status = 500 then
        match jsonStr with
        | some j =>
          if strContains (pyLower j) "duplicate" || strContains (pyLower j) "unique"
          then ⟨duplicateR "Duplicate wfId", 0, 0⟩
          else ⟨failedR ("Server error: " ++ text.take 200), 0, 0⟩
        | none => ⟨failedR ("Server error: " ++ text.take 200), 0, 0⟩
      else
        ⟨failedR ("HTTP " ++ toString status ++ ": " ++ text.take 200), 0, 0⟩
  termination_by structural fuel

/-- `upload_facility(facility, retry_count)` under environment `env`. -/
def upload_facility (env : Nat → AttemptEvent) (facility : Facility)
    (retry_count : Nat) : SubmitTrace :=
  upload_facility_go env facility retry_count (max_retries - retry_count)

/-! ## Upload log: `log_result`, `load_uploaded_records`, `get_upload_stats`

The log file is a `List Char`.  `log_result` appends
`f"{geo_code}|{status}|{message}|{osid_str}|{wf_id_str}|{timestamp}\n"`;
the readers iterate over the file's lines and tokenise each with
`line.strip().split('|')`. -/

/-- The characters of one `log_result` entry, without the final newline. -/
def log_result_line (geo_code status message : String)
    (osid wf_id : Option String) (timestamp : String) : List Char :=
  geo_code.data ++ '|' :: (status.data ++ '|' :: (message.data ++
    '|' :: ((osid.getD "").data ++ '|' :: ((wf_id.getD "").data ++
    '|' :: timestamp.data))))

/-- `log_result`: append one entry (line plus newline) to the log file. -/
def log_result (file : List Char) (geo_code status message : String)
    (osid wf_id : Option String) (timestamp : String) : List Char :=
  file ++ log_result_line geo_code status message osid wf_id timestamp ++ ['\n']

/-- The key a line contributes to `load_uploaded_records`:
`parts = line.strip().split('|')`, and the line counts iff
`len(parts) >= 3 and parts[1] == 'SUCCESS'`. -/
def successKey (l : List Char) : Option (List Char) :=
  let parts := lineParts l
  if 3 ≤ parts.length ∧ parts.getD 1 [] = kSUCCESS then some (parts.getD 0 [])
  else none

/-- `load_uploaded_records()`: the set of geo_codes of SUCCESS lines. -/
def load_uploaded_records (file : List Char) : List (List Char) :=
  (fileLines file).filterMap successKey

/-- The counters returned by `get_upload_stats`. -/
structure Stats where
  success : Nat
  failed : Nat
  duplicate : Nat
deriving DecidableEq, Repr

/-- One line's contribution to `get_upload_stats`. -/
def statsStep (s : Stats) (l : List Char) : Stats :=
  let parts := lineParts l
  if 2 ≤ parts.length then
    if parts.getD 1 [] = kSUCCESS then { s with success := s.success + 1 }
    else if parts.getD 1 [] = kDUPLICATE then
      { s with duplicate := s.duplicate + 1 }
    else if parts.getD 1 [] = kFAILED then { s with failed := s.failed + 1 }
    else s
  else s

/-- `get_upload_stats()`: cumulative outcome counts over the whole file. -/
def get_upload_stats (file : List Char) : Stats :=
  (fileLines file).foldl statsStep ⟨0, 0, 0⟩

/-! ## Bulk driver: `main` filter and `bulk_upload` loop -/

/-- One CSV row, by its natural key (`row['geo_code']`, stringified). -/
structure Row where
  geo_code : String

/-- The external world for one record: the outcome of `row_to_facility`
(`.error` = the raised exception's message), the per-attempt events for its
`upload_facility` call, and the `datetime.now()` string used by
`log_result`. -/
structure RecordEnv where
  transform : Except String Facility
  attempts : Nat → AttemptEvent
  timestamp : String

/-- The log line `bulk_upload` writes for one record: on transform failure a
`FAILED / Transform error` entry with no upload; otherwise the entry for the
`upload_facility` result. -/
def record_line (r : Row) (env : RecordEnv) : List Char :=
  match env.transform with
  | .error m =>
    log_result_line r.geo_code "FAILED" ("Transform error: " ++ m)
      none none env.timestamp
  | .ok fac =>
    let t := upload_facility env.attempts fac 0
    log_result_line r.geo_code t.res.status t.res.message
      t.res.osid t.res.wfId env.timestamp

/-- The chunk a record appends to the log file (its line plus newline). -/
def record_entry (r : Row) (env : RecordEnv) : List Char :=
  record_line r env ++ ['\n']

/-- Number of network submissions (`upload_facility` calls) made for one
record: zero when the transform fails, one otherwise. -/
def record_submits (env : RecordEnv) : Nat :=
  match env.transform with
  | .error _ => 0
  | .ok _ => 1

/-- The `bulk_upload` loop's effect on the log file: for each record, append
exactly one entry (transform-failure entry or upload-result entry). -/
def bulk_upload_log (items : List (Row × RecordEnv)) (file : List Char) :
    List Char :=
  items.foldl (fun f it => f ++ record_entry it.1 it.2) file

/-- `main`'s completed-key filter:
`df_to_upload = df[~df['geo_code'].isin(load_uploaded_records())]`. -/
def df_to_upload (rows : List (Row × RecordEnv)) (file : List Char) :
    List (Row × RecordEnv) :=
  let uploaded := load_uploaded_records file
  rows.filter fun it => !(uploaded.contains it.1.geo_code.data)

/-- The geo_codes for which a run issues a network submission: records that
survive the completed-key filter and whose transform succeeds. -/
def run_submission_keys (rows : List (Row × RecordEnv)) (file : List Char) :
    List String :=
  (df_to_upload rows file).filterMap fun it =>
    match it.2.transform with
    | .ok _ => some it.1.geo_code
    | .error _ => none

/-- One full invocation: filter against the completed keys, then run the
`bulk_upload` loop, appending one entry per surviving record. -/
def apply_run (file : List Char) (run : List (Row × RecordEnv)) : List Char :=
  bulk_upload_log (df_to_upload run file) file

/-- The log file produced by a sequence of invocations starting from an
empty log. -/
def history_file (runs : List (List (Row × RecordEnv))) : List Char :=
  runs.foldl apply_run []

/-! ## Progress arithmetic (`bulk_upload`'s periodic status line) -/

/-- `rate = idx / elapsed if elapsed > 0 else 0`. -/
def progress_rate (idx elapsed : ℚ) : ℚ :=
  if elapsed > 0 then idx / elapsed else 0

/-- `eta_seconds = (total - idx) / rate if rate > 0 else 0`. -/
def progress_eta_seconds (total idx rate : ℚ) : ℚ :=
  if rate > 0 then (total - idx) / rate else 0

/-- `eta_minutes = eta_seconds / 60`. -/
def progress_eta_minutes (total idx rate : ℚ) : ℚ :=
  progress_eta_seconds total idx rate / 60

/-! ## Derived notions used to state the claims -/

/-- Count of log lines carrying a given outcome in field 1, over given
lines (the readers require at least 2 fields). -/
def countOutcome (o : List Char) (lines : List (List Char)) : Nat :=
  lines.countP fun l =>
    decide (2 ≤ (lineParts l).length ∧ (lineParts l).getD 1 [] = o)

/-- Count of lines recording a SUCCESS for the given key. -/
def countSucc (k : List Char) (lines : List (List Char)) : Nat :=
  lines.countP fun l => successKey l == some k

/-- A log file made of newline-terminated lines. -/
def joinNl (lines : List (List Char)) : List Char :=
  (lines.map fun l => l ++ ['\n']).flatten

/-- An itemKey that survives the write/parse round trip: no `'|'`, no
newline, no leading whitespace. -/
def keyWf (k : List Char) : Prop :=
  (∀ c ∈ k, c ≠ '|' ∧ c ≠ '\n') ∧ k.dropWhile wsChar = k

/-- A line that stays one physical line in the file. -/
def lineWf (l : List Char) : Prop := ∀ c ∈ l, c ≠ '\n'

/-- The status string `bulk_upload` logs for one record. -/
def record_status (env : RecordEnv) : String :=
  match env.transform with
  | .error _ => "FAILED"
  | .ok fac => (upload_facility env.attempts fac 0).res.status

/-- Hypotheses of the resume invariant for one run's input: distinct keys,
and every record writes a round-trippable single-line entry. -/
def run_items_ok (run : List (Row × RecordEnv)) : Prop :=
  (run.map fun it => it.1.geo_code.data).Nodup ∧
  ∀ it ∈ run, keyWf it.1.geo_code.data ∧ lineWf (record_line it.1 it.2)

instance (k : List Char) : Decidable (keyWf k) := by
  unfold keyWf
  infer_instance

instance (l : List Char) : Decidable (lineWf l) := by
  unfold lineWf
  infer_instance

instance (run : List (Row × RecordEnv)) : Decidable (run_items_ok run) := by
  unfold run_items_ok
  infer_instance

/-! ## Event-shape predicates used by the claims -/

/-- The POST returned a 401 response. -/
def is401 (e : AttemptEvent) : Prop :=
  ∃ t js os f, e = .postResp 401 t js os f

/-- The POST returned a 200 response whose JSON carries the created `osid`,
and the follow-up fetch returned a response. -/
def isOk200 (e : AttemptEvent) : Prop :=
  ∃ t js osv fst wf, e = .postResp 200 t js (.ok osv) (.resp fst wf)

/-! ## Concrete fixtures for witnesses and counterexamples -/

def pay0 : Facility := ⟨"payload"⟩

def okEvent : AttemptEvent :=
  .postResp 200 "ok" none (.ok "osid1") (.resp 200 (some "WF1"))

def ev401 : AttemptEvent :=
  .postResp 401 "Unauthorized" none (.error "KeyError") (.timeout)

/-- Three consecutive 401 responses, then a clean 200. -/
def env401x3 : Nat → AttemptEvent := fun i => if i < 3 then ev401 else okEvent

/-- 401 on every attempt. -/
def env401x4 : Nat → AttemptEvent := fun _ => ev401

/-- A 500 whose JSON body mentions a unique constraint. -/
def env500dup : Nat → AttemptEvent := fun _ =>
  .postResp 500 "err"
    (some "ERROR: duplicate key value violates unique constraint")
    (.error "KeyError") (.timeout)

/-- A 502 whose body says "duplicate": 5xx but not 500. -/
def env502dup : Nat → AttemptEvent := fun _ =>
  .postResp 502 "duplicate entry" (some "duplicate entry")
    (.error "KeyError") (.timeout)

/-- A 201 creation response: 2xx but not 200. -/
def env201 : Nat → AttemptEvent := fun _ =>
  .postResp 201 "Created" none (.ok "osid1") (.resp 200 (some "WF1"))

/-- A 200 creation whose follow-up fetch returns 404. -/
def envFetchFail : Nat → AttemptEvent := fun _ =>
  .postResp 200 "ok" none (.ok "osid1") (.resp 404 none)

/-- Three timeouts, then a single 401, then clean 200s. -/
def envSharedBudget : Nat → AttemptEvent := fun i =>
  if i < 3 then .postTimeout else if i = 3 then ev401 else okEvent

def envAuthFail : Nat → AttemptEvent := fun _ => .authFail

def envPostFault : Nat → AttemptEvent := fun _ => .postErr "boom"

/-- A 200 response whose JSON lacks the created-resource id. -/
def envNoOsid : Nat → AttemptEvent := fun _ =>
  .postResp 200 "ok" (some "resp") (.error "KeyError: result")
    (.resp 200 none)

/-- A 500 response whose body is not JSON. -/
def envBadJson : Nat → AttemptEvent := fun _ =>
  .postResp 500 "oops not json" none (.error "e") (.timeout)

def tsW : String := "2026-10-12 00:00:00"

def rowA : Row := ⟨"A1"⟩
def rowB : Row := ⟨"B2"⟩

def envOkRec : RecordEnv := ⟨.ok pay0, fun _ => okEvent, tsW⟩
def envDupRec : RecordEnv := ⟨.ok pay0, env500dup, tsW⟩
def envBadRec : RecordEnv := ⟨.error "missing field lat", fun _ => okEvent, tsW⟩

/-- A prior log: A1 succeeded, B2 failed. -/
def fileW : List Char :=
  log_result
    (log_result [] "A1" "SUCCESS" "Created" (some "o1") (some "w1") tsW)
    "B2" "FAILED" "Timeout after retries" none none tsW

/-- Two input rows matching the prior log's keys. -/
def rowsW : List (Row × RecordEnv) := [(rowA, envOkRec), (rowB, envOkRec)]

/-- A two-run history: A1 succeeds in run 1; run 2 retries A1 and gets B2
classified as a duplicate. -/
def runsW7 : List (List (Row × RecordEnv)) :=
  [[(rowA, envOkRec)], [(rowA, envOkRec), (rowB, envDupRec)]]

end BulkUpload

namespace BulkUpload

theorem splitOnChar_sep_free (sep : Char) (xs : List Char)
    (h : ∀ c ∈ xs, c ≠ sep) : splitOnChar sep xs = [xs] := by
  induction xs with
  | nil => rfl
  | cons c cs ih =>
    have hc : c ≠ sep := h c (by simp)
    simp [splitOnChar, hc, ih fun d hd => h d (by simp [hd])]

theorem splitOnChar_append (sep : Char) (xs r : List Char)
    (h : ∀ c ∈ xs, c ≠ sep) :
    splitOnChar sep (xs ++ sep :: r) = xs :: splitOnChar sep r := by
  induction xs with
  | nil => simp [splitOnChar]
  | cons c cs ih =>
    have hc : c ≠ sep := h c (by simp)
    have ih' := ih fun d hd => h d (by simp [hd])
    simp only [List.cons_append, splitOnChar, hc, if_false]
    rw [show cs.append (sep :: r) = cs ++ sep :: r from rfl, ih']

theorem splitOnChar_ne_nil (sep : Char) (l : List Char) :
    splitOnChar sep l ≠ [] := by
  induction l with
  | nil => simp [splitOnChar]
  | cons c cs ih =>
    by_cases hc : c = sep
    · simp [splitOnChar, hc]
    · simp only [splitOnChar, hc, if_false]
      cases hsp : splitOnChar sep cs with
      | nil => exact absurd hsp ih
      | cons p ps => simp

theorem dropWhile_fix_cons_false (c : Char) (cs : List Char)
    (h : (c :: cs).dropWhile wsChar = c :: cs) : wsChar c = false := by
  by_contra hc
  have hc' : wsChar c = true := by
    cases hw : wsChar c
    · exact absurd hw hc
    · rfl
  have h1 : (c :: cs).dropWhile wsChar = cs.dropWhile wsChar := by
    simp [List.dropWhile, hc']
  have h2 : (cs.dropWhile wsChar).length ≤ cs.length :=
    (List.dropWhile_sublist _).length_le
  rw [h1] at h
  have := congrArg List.length h
  simp at this
  omega

theorem dropWhile_ws_append_pipe (key r : List Char)
    (hk : key.dropWhile wsChar = key) :
    (key ++ '|' :: r).dropWhile wsChar = key ++ '|' :: r := by
  cases key with
  | nil =>
    have : wsChar '|' = false := by decide
    simp [List.dropWhile, this]
  | cons c cs =>
    have hc := dropWhile_fix_cons_false c cs hk
    simp [List.dropWhile, hc]

/-- Trimming trailing whitespace off `a ++ b` leaves `a` intact when `b`
contains a non-whitespace character. -/
theorem stripTrailing_append (a b : List Char)
    (hb : ∃ c ∈ b, wsChar c = false) :
    ((a ++ b).reverse.dropWhile wsChar).reverse =
      a ++ (b.reverse.dropWhile wsChar).reverse := by
  have hne : b.reverse.dropWhile wsChar ≠ [] := by
    intro hnil
    obtain ⟨c, hc, hcw⟩ := hb
    have := List.dropWhile_eq_nil_iff.mp hnil c (by simp [hc])
    rw [hcw] at this
    exact Bool.false_ne_true this
  rw [List.reverse_append, List.dropWhile_append]
  have : (b.reverse.dropWhile wsChar).isEmpty = false := by
    cases hsp : b.reverse.dropWhile wsChar with
    | nil => exact absurd hsp hne
    | cons p ps => simp
  rw [this]
  simp

theorem pyStrip_log_decomp (key rest : List Char)
    (hk : key.dropWhile wsChar = key)
    (hr : ∃ c ∈ rest, wsChar c = false) :
    pyStrip (key ++ '|' :: rest) =
      key ++ '|' :: (rest.reverse.dropWhile wsChar).reverse := by
  unfold pyStrip
  rw [dropWhile_ws_append_pipe key rest hk]
  have h1 : key ++ '|' :: rest = (key ++ ['|']) ++ rest := by simp
  rw [h1, stripTrailing_append (key ++ ['|']) rest hr]
  simp

theorem authMsg_eq :
    "Auth failed after " ++ toString max_retries ++ " retries" =
      "Auth failed after 3 retries" := by decide

/-- Every branch of one attempt leaves the status among the three outcomes,
and retries only pass a recursive status through. -/
theorem go_status_mem (env : Nat → AttemptEvent) (pay : Facility) :
    ∀ fuel rc, (upload_facility_go env pay rc fuel).res.status = "SUCCESS" ∨
      (upload_facility_go env pay rc fuel).res.status = "DUPLICATE" ∨
      (upload_facility_go env pay rc fuel).res.status = "FAILED" := by
  intro fuel
  induction fuel with
  | zero =>
    intro rc
    cases h : env rc with
    | authFail => simp [upload_facility_go, h, failedR]
    | postTimeout => simp [upload_facility_go, h, failedR]
    | postErr m => simp [upload_facility_go, h, failedR]
    | postResp status text js os f =>
      simp only [upload_facility_go, h]
      by_cases h200 : status = 200
      · simp only [h200, if_true]
        cases os with
        | error m => simp [failedR]
        | ok osv =>
          cases f with
          | timeout => simp [failedR]
          | err m => simp [failedR]
          | resp fst wf => simp
      · by_cases h401 : status = 401
        · simp [h200, h401, failedR]
        · by_cases h500 : status = 500
          · cases js with
            | none => simp [h200, h401, h500, failedR]
            | some j =>
              simp only [h200, h401, h500]
              simp +decide only [if_false, if_true]
              split_ifs <;> simp [duplicateR, failedR]
          · simp [h200, h401, h500, failedR]
  | succ n ih =>
    intro rc
    cases h : env rc with
    | authFail => simp [upload_facility_go, h, failedR]
    | postTimeout => simpa [upload_facility_go, h] using ih (rc + 1)
    | postErr m => simp [upload_facility_go, h, failedR]
    | postResp status text js os f =>
      simp only [upload_facility_go, h]
      by_cases h200 : status = 200
      · simp only [h200, if_true]
        cases os with
        | error m => simp [failedR]
        | ok osv =>
          cases f with
          | timeout => simpa using ih (rc + 1)
          | err m => simp [failedR]
          | resp fst wf => simp
      · by_cases h401 : status = 401
        · simpa [h200, h401] using ih (rc + 1)
        · by_cases h500 : status = 500
          · cases js with
            | none => simp [h200, h401, h500, failedR]
            | some j =>
              simp only [h200, h401, h500]
              simp +decide only [if_false, if_true]
              split_ifs <;> simp [duplicateR, failedR]
          · simp [h200, h401, h500, failedR]

end BulkUpload

namespace BulkUpload

theorem go_authFail (env : Nat → AttemptEvent) (pay : Facility) (rc fuel : Nat)
    (h : env rc = .authFail) :
    upload_facility_go env pay rc fuel =
      ⟨failedR ("Failed to obtain access token".take 200), 0, 0⟩ := by
  cases fuel <;> simp [upload_facility_go, h]

theorem go_postErr (env : Nat → AttemptEvent) (pay : Facility) (rc fuel : Nat)
    (m : String) (h : env rc = .postErr m) :
    upload_facility_go env pay rc fuel = ⟨failedR (m.take 200), 0, 0⟩ := by
  cases fuel <;> simp [upload_facility_go, h]

theorem go_ok200 (env : Nat → AttemptEvent) (pay : Facility) (rc fuel : Nat)
    (t : String) (js : Option String) (osv : String) (fst : Nat)
    (wf : Option String) (h : env rc = .postResp 200 t js (.ok osv) (.resp fst wf)) :
    upload_facility_go env pay rc fuel =
      ⟨⟨"SUCCESS", "Created", some osv, if fst = 200 then wf else none⟩, 0, 0⟩ := by
  cases fuel <;> simp [upload_facility_go, h]

theorem go_osidErr (env : Nat → AttemptEvent) (pay : Facility) (rc fuel : Nat)
    (t : String) (js : Option String) (m : String) (f : FetchEvent)
    (h : env rc = .postResp 200 t js (.error m) f) :
    upload_facility_go env pay rc fuel = ⟨failedR (m.take 200), 0, 0⟩ := by
  cases fuel <;> simp [upload_facility_go, h]

theorem go_401_step (env : Nat → AttemptEvent) (pay : Facility) (rc fuel : Nat)
    (t : String) (js : Option String) (os : Except String String) (f : FetchEvent)
    (h : env rc = .postResp 401 t js os f) :
    upload_facility_go env pay rc (fuel + 1) =
      ⟨(upload_facility_go env pay (rc + 1) fuel).res,
       (upload_facility_go env pay (rc + 1) fuel).refreshes + 1,
       (upload_facility_go env pay (rc + 1) fuel).timeoutRetries⟩ := by
  simp +decide [upload_facility_go, h]

theorem go_401_zero (env : Nat → AttemptEvent) (pay : Facility) (rc : Nat)
    (t : String) (js : Option String) (os : Except String String) (f : FetchEvent)
    (h : env rc = .postResp 401 t js os f) :
    upload_facility_go env pay rc 0 =
      ⟨failedR "Auth failed after 3 retries", 0, 0⟩ := by
  simp +decide [upload_facility_go, h]

theorem go_timeout_step (env : Nat → AttemptEvent) (pay : Facility) (rc fuel : Nat)
    (h : env rc = .postTimeout) :
    upload_facility_go env pay rc (fuel + 1) =
      ⟨(upload_facility_go env pay (rc + 1) fuel).res,
       (upload_facility_go env pay (rc + 1) fuel).refreshes,
       (upload_facility_go env pay (rc + 1) fuel).timeoutRetries + 1⟩ := by
  simp [upload_facility_go, h]

theorem go_timeout_zero (env : Nat → AttemptEvent) (pay : Facility) (rc : Nat)
    (h : env rc = .postTimeout) :
    upload_facility_go env pay rc 0 = ⟨failedR "Timeout after retries", 0, 0⟩ := by
  simp [upload_facility_go, h]

theorem go_500_json (env : Nat → AttemptEvent) (pay : Facility) (rc fuel : Nat)
    (t j : String) (os : Except String String) (f : FetchEvent)
    (h : env rc = .postResp 500 t (some j) os f) :
    upload_facility_go env pay rc fuel =
      if strContains (pyLower j) "duplicate" || strContains (pyLower j) "unique"
      then ⟨duplicateR "Duplicate wfId", 0, 0⟩
      else ⟨failedR ("Server error: " ++ t.take 200), 0, 0⟩ := by
  cases fuel <;> simp +decide [upload_facility_go, h]

theorem go_500_nojson (env : Nat → AttemptEvent) (pay : Facility) (rc fuel : Nat)
    (t : String) (os : Except String String) (f : FetchEvent)
    (h : env rc = .postResp 500 t none os f) :
    upload_facility_go env pay rc fuel =
      ⟨failedR ("Server error: " ++ t.take 200), 0, 0⟩ := by
  cases fuel <;> simp +decide [upload_facility_go, h]

theorem go_budget (env : Nat → AttemptEvent) (pay : Facility) :
    ∀ fuel rc, (upload_facility_go env pay rc fuel).refreshes +
      (upload_facility_go env pay rc fuel).timeoutRetries ≤ fuel := by
  intro fuel
  induction fuel with
  | zero =>
    intro rc
    cases h : env rc with
    | authFail => simp [go_authFail env pay rc 0 h]
    | postTimeout => simp [go_timeout_zero env pay rc h]
    | postErr m => simp [go_postErr env pay rc 0 m h]
    | postResp status text js os f =>
      by_cases h200 : status = 200
      · subst h200
        cases os with
        | error m => simp [go_osidErr env pay rc 0 text js m f h]
        | ok osv =>
          cases f with
          | timeout => simp [upload_facility_go, h]
          | err m => simp [upload_facility_go, h]
          | resp fst wf => simp [go_ok200 env pay rc 0 text js osv fst wf h]
      · by_cases h401 : status = 401
        · subst h401
          simp [go_401_zero env pay rc text js os f h]
        · by_cases h500 : status = 500
          · subst h500
            cases js with
            | none => simp [go_500_nojson env pay rc 0 text os f h]
            | some j =>
              rw [go_500_json env pay rc 0 text j os f h]
              split_ifs <;> simp
          · simp [upload_facility_go, h, h200, h401, h500]
  | succ n ih =>
    intro rc
    cases h : env rc with
    | authFail => simp [go_authFail env pay rc (n + 1) h]
    | postTimeout =>
      rw [go_timeout_step env pay rc n h]
      have := ih (rc + 1)
      dsimp only
      omega
    | postErr m => simp [go_postErr env pay rc (n + 1) m h]
    | postResp status text js os f =>
      by_cases h200 : status = 200
      · subst h200
        cases os with
        | error m => simp [go_osidErr env pay rc (n + 1) text js m f h]
        | ok osv =>
          cases f with
          | timeout =>
            have hstep : upload_facility_go env pay rc (n + 1) =
                ⟨(upload_facility_go env pay (rc + 1) n).res,
                 (upload_facility_go env pay (rc + 1) n).refreshes,
                 (upload_facility_go env pay (rc + 1) n).timeoutRetries + 1⟩ := by
              simp [upload_facility_go, h]
            rw [hstep]
            have := ih (rc + 1)
            dsimp only
            omega
          | err m => simp [upload_facility_go, h]
          | resp fst wf =>
            simp [go_ok200 env pay rc (n + 1) text js osv fst wf h]
      · by_cases h401 : status = 401
        · subst h401
          rw [go_401_step env pay rc n text js os f h]
          have := ih (rc + 1)
          dsimp only
          omega
        · by_cases h500 : status = 500
          · subst h500
            cases js with
            | none => simp [go_500_nojson env pay rc (n + 1) text os f h]
            | some j =>
              rw [go_500_json env pay rc (n + 1) text j os f h]
              split_ifs <;> simp
          · simp [upload_facility_go, h, h200, h401, h500]

end BulkUpload

namespace BulkUpload

/-- C2 (amended): three consecutive 401 responses followed by a 200 cause
exactly 3 forced token refreshes and a SUCCESS outcome; four consecutive
401s return FAILED with message "Auth failed after 3 retries" (not
"auth failed after retries"), likewise after 3 forced refreshes. -/
theorem c2_auth_retry_bound (env₁ env₂ : Nat → AttemptEvent) (pay : Facility)
    (h1 : ∀ i, i < 3 → is401 (env₁ i)) (h2 : isOk200 (env₁ 3))
    (h3 : ∀ i, i ≤ 3 → is401 (env₂ i)) :
    ((upload_facility env₁ pay 0).res.status = "SUCCESS" ∧
     (upload_facility env₁ pay 0).refreshes = 3) ∧
    ((upload_facility env₂ pay 0).res = failedR "Auth failed after 3 retries" ∧
     (upload_facility env₂ pay 0).refreshes = 3) := by
  obtain ⟨t0, j0, o0, f0, e0⟩ := h1 0 (by norm_num)
  obtain ⟨t1, j1, o1, f1, e1⟩ := h1 1 (by norm_num)
  obtain ⟨t2, j2, o2, f2, e2⟩ := h1 2 (by norm_num)
  obtain ⟨t3, j3, ov, fs, wf, e3⟩ := h2
  obtain ⟨s0, p0, q0, r0, g0⟩ := h3 0 (by norm_num)
  obtain ⟨s1, p1, q1, r1, g1⟩ := h3 1 (by norm_num)
  obtain ⟨s2, p2, q2, r2, g2⟩ := h3 2 (by norm_num)
  obtain ⟨s3, p3, q3, r3, g3⟩ := h3 3 (by norm_num)
  constructor
  · have hu : upload_facility env₁ pay 0 = upload_facility_go env₁ pay 0 3 := rfl
    rw [hu, go_401_step env₁ pay 0 2 t0 j0 o0 f0 e0,
        go_401_step env₁ pay 1 1 t1 j1 o1 f1 e1,
        go_401_step env₁ pay 2 0 t2 j2 o2 f2 e2,
        go_ok200 env₁ pay 3 0 t3 j3 ov fs wf e3]
    exact ⟨rfl, rfl⟩
  · have hu : upload_facility env₂ pay 0 = upload_facility_go env₂ pay 0 3 := rfl
    rw [hu, go_401_step env₂ pay 0 2 s0 p0 q0 r0 g0,
        go_401_step env₂ pay 1 1 s1 p1 q1 r1 g1,
        go_401_step env₂ pay 2 0 s2 p2 q2 r2 g2,
        go_401_zero env₂ pay 3 s3 p3 q3 r3 g3]
    exact ⟨rfl, rfl⟩

theorem c2_message_counterexample :
    (upload_facility env401x4 pay0 0).res.status = "FAILED" ∧
    (upload_facility env401x4 pay0 0).res.message = "Auth failed after 3 retries" ∧
    (upload_facility env401x4 pay0 0).res.message ≠ "auth failed after retries" := by
  decide

theorem c2_auth_retry_bound_witness :
    ((upload_facility env401x3 pay0 0).res.status = "SUCCESS" ∧
     (upload_facility env401x3 pay0 0).refreshes = 3) ∧
    ((upload_facility env401x4 pay0 0).res = failedR "Auth failed after 3 retries" ∧
     (upload_facility env401x4 pay0 0).refreshes = 3) :=
  c2_auth_retry_bound env401x3 env401x4 pay0
    (by
      intro i hi
      interval_cases i <;>
        exact ⟨"Unauthorized", none, .error "KeyError", .timeout, rfl⟩)
    ⟨"ok", none, "osid1", 200, some "WF1", rfl⟩
    (by
      intro i hi
      exact ⟨"Unauthorized", none, .error "KeyError", .timeout, rfl⟩)

end BulkUpload

namespace BulkUpload

/-- C3 (amended): only a response with status exactly 500 (not every 5xx) is
classified by its body: when the body parses as JSON and its serialization
contains the case-insensitive substring "duplicate" or "unique" the outcome
is DUPLICATE, otherwise (no match, or a body that does not parse as JSON)
the outcome is FAILED carrying the first 200 characters of the response
body. -/
theorem c3_500_classification (env : Nat → AttemptEvent) (pay : Facility)
    (rc : Nat) (t : String) (js : Option String) (os : Except String String)
    (f : FetchEvent) (h : env rc = .postResp 500 t js os f) :
    (∀ j, js = some j →
      ((strContains (pyLower j) "duplicate" || strContains (pyLower j) "unique") = true →
        (upload_facility env pay rc).res = duplicateR "Duplicate wfId") ∧
      ((strContains (pyLower j) "duplicate" || strContains (pyLower j) "unique") = false →
        (upload_facility env pay rc).res =
          failedR ("Server error: " ++ t.take 200))) ∧
    (js = none →
      (upload_facility env pay rc).res =
        failedR ("Server error: " ++ t.take 200)) := by
  constructor
  · intro j hj
    subst hj
    rw [upload_facility, go_500_json env pay rc (max_retries - rc) t j os f h]
    constructor
    · intro hc
      rw [if_pos hc]
    · intro hc
      rw [if_neg (by simp [hc])]
  · intro hj
    subst hj
    rw [upload_facility, go_500_nojson env pay rc (max_retries - rc) t os f h]

theorem c3_5xx_counterexample :
    (upload_facility env502dup pay0 0).res.status = "FAILED" ∧
    (upload_facility env502dup pay0 0).res.status ≠ "DUPLICATE" ∧
    (upload_facility env502dup pay0 0).res.message = "HTTP 502: duplicate entry" := by
  decide

theorem c3_500_classification_witness :
    (upload_facility env500dup pay0 0).res = duplicateR "Duplicate wfId" := by
  have h := (c3_500_classification env500dup pay0 0 "err"
      (some "ERROR: duplicate key value violates unique constraint")
      (.error "KeyError") (.timeout) rfl).1
      "ERROR: duplicate key value violates unique constraint" rfl
  exact h.1 (by decide)

/-- C4 (amended): only a creation response with status exactly 200 (not every
2xx) whose JSON carries the created id yields SUCCESS; when the follow-up
fetch returns an HTTP response, the outcome is SUCCESS regardless of the
fetch's status, and a non-200 fetch leaves the secondary id empty. -/
theorem c4_success_and_fetch (env : Nat → AttemptEvent) (pay : Facility)
    (rc : Nat) (t : String) (js : Option String) (osv : String) (fst : Nat)
    (wf : Option String)
    (h : env rc = .postResp 200 t js (.ok osv) (.resp fst wf)) :
    (upload_facility env pay rc).res.status = "SUCCESS" ∧
    (upload_facility env pay rc).res.osid = some osv ∧
    (fst = 200 → (upload_facility env pay rc).res.wfId = wf) ∧
    (fst ≠ 200 → (upload_facility env pay rc).res.wfId = none) := by
  rw [upload_facility, go_ok200 env pay rc (max_retries - rc) t js osv fst wf h]
  refine ⟨rfl, rfl, ?_, ?_⟩
  · intro hf
    simp [hf]
  · intro hf
    simp [hf]

theorem c4_2xx_counterexample :
    (upload_facility env201 pay0 0).res.status = "FAILED" ∧
    (upload_facility env201 pay0 0).res.status ≠ "SUCCESS" ∧
    (upload_facility env201 pay0 0).res.message = "HTTP 201: Created" := by
  decide

theorem c4_success_and_fetch_witness :
    (upload_facility envFetchFail pay0 0).res.status = "SUCCESS" ∧
    (upload_facility envFetchFail pay0 0).res.wfId = none := by
  have h := c4_success_and_fetch envFetchFail pay0 0 "ok" none "osid1" 404 none rfl
  exact ⟨h.1, h.2.2.2 (by decide)⟩

theorem c5_shared_budget_counterexample :
    (upload_facility envSharedBudget pay0 0).res.status = "FAILED" ∧
    (upload_facility envSharedBudget pay0 0).res.status ≠ "SUCCESS" ∧
    (upload_facility envSharedBudget pay0 0).res.message = "Auth failed after 3 retries" ∧
    (upload_facility envSharedBudget pay0 0).timeoutRetries = 3 ∧
    (upload_facility envSharedBudget pay0 0).refreshes = 0 := by
  decide

/-- C5 (amended): the 401 and timeout failure classes draw on one shared
retry counter: over any interleaving of responses, the total number of
retries (forced token refreshes plus timeout retries) is at most
`max_retries`; the classes are not independently budgeted. -/
theorem c5_shared_retry_budget (env : Nat → AttemptEvent) (pay : Facility) :
    (upload_facility env pay 0).refreshes +
      (upload_facility env pay 0).timeoutRetries ≤ max_retries :=
  go_budget env pay (max_retries - 0) 0

/-- C9: `upload_facility` is total over every behaviour of the remote
endpoints: the returned status is always SUCCESS, DUPLICATE or FAILED; a
token-exchange failure, a transport fault, a 200 response whose JSON lacks
the created id, and a 500 whose body is not JSON each produce a FAILED
result whose caught fault message is truncated to 200 characters. -/
theorem c9_submit_total (env : Nat → AttemptEvent) (pay : Facility) (rc : Nat) :
    ((upload_facility env pay rc).res.status = "SUCCESS" ∨
     (upload_facility env pay rc).res.status = "DUPLICATE" ∨
     (upload_facility env pay rc).res.status = "FAILED") ∧
    (env rc = .authFail →
      (upload_facility env pay rc).res =
        failedR ("Failed to obtain access token".take 200)) ∧
    (∀ m, env rc = .postErr m →
      (upload_facility env pay rc).res = failedR (m.take 200)) ∧
    (∀ t js m f, env rc = .postResp 200 t js (.error m) f →
      (upload_facility env pay rc).res = failedR (m.take 200)) ∧
    (∀ t os f, env rc = .postResp 500 t none os f →
      (upload_facility env pay rc).res =
        failedR ("Server error: " ++ t.take 200)) := by
  refine ⟨go_status_mem env pay (max_retries - rc) rc, ?_, ?_, ?_, ?_⟩
  · intro h
    rw [upload_facility, go_authFail env pay rc (max_retries - rc) h]
  · intro m h
    rw [upload_facility, go_postErr env pay rc (max_retries - rc) m h]
  · intro t js m f h
    rw [upload_facility, go_osidErr env pay rc (max_retries - rc) t js m f h]
  · intro t os f h
    rw [upload_facility, go_500_nojson env pay rc (max_retries - rc) t os f h]

theorem c9_submit_total_witness :
    (upload_facility envAuthFail pay0 0).res = failedR "Failed to obtain access token" ∧
    (upload_facility envPostFault pay0 0).res = failedR "boom" ∧
    (upload_facility envNoOsid pay0 0).res = failedR "KeyError: result" ∧
    (upload_facility envBadJson pay0 0).res =
      failedR "Server error: oops not json" := by
  refine ⟨?_, ?_, ?_, ?_⟩
  · exact ((c9_submit_total envAuthFail pay0 0).2.1 rfl).trans (by decide)
  · exact ((c9_submit_total envPostFault pay0 0).2.2.1 "boom" rfl).trans (by decide)
  · exact ((c9_submit_total envNoOsid pay0 0).2.2.2.1 "ok" (some "resp")
      "KeyError: result" (.resp 200 none) rfl).trans (by decide)
  · exact ((c9_submit_total envBadJson pay0 0).2.2.2.2 "oops not json"
      (.error "e") (.timeout) rfl).trans (by decide)

end BulkUpload

namespace BulkUpload


theorem lineParts_fields (key status message osid wfid ts : List Char)
    (hk_pipe : ∀ c ∈ key, c ≠ '|') (hk_ws : key.dropWhile wsChar = key)
    (hs_pipe : ∀ c ∈ status, c ≠ '|') :
    ∃ rest, rest ≠ [] ∧
      lineParts (key ++ '|' :: (status ++ '|' :: (message ++ '|' :: (osid ++
        '|' :: (wfid ++ '|' :: ts))))) = key :: status :: rest := by
  refine ⟨splitOnChar '|'
    (((message ++ '|' :: (osid ++ '|' :: (wfid ++ '|' :: ts))).reverse.dropWhile
      wsChar).reverse), splitOnChar_ne_nil _ _, ?_⟩
  unfold lineParts
  rw [pyStrip_log_decomp key
      (status ++ '|' :: (message ++ '|' :: (osid ++ '|' :: (wfid ++ '|' :: ts))))
      hk_ws ⟨'|', by simp, by decide⟩]
  have hassoc : status ++ '|' :: (message ++ '|' :: (osid ++ '|' :: (wfid ++ '|' :: ts)))
      = (status ++ ['|']) ++ (message ++ '|' :: (osid ++ '|' :: (wfid ++ '|' :: ts))) := by
    simp
  rw [hassoc, stripTrailing_append (status ++ ['|'])
      (message ++ '|' :: (osid ++ '|' :: (wfid ++ '|' :: ts))) ⟨'|', by simp, by decide⟩]
  have hassoc2 : (status ++ ['|']) ++
      ((message ++ '|' :: (osid ++ '|' :: (wfid ++ '|' :: ts))).reverse.dropWhile
        wsChar).reverse
      = status ++ '|' ::
        ((message ++ '|' :: (osid ++ '|' :: (wfid ++ '|' :: ts))).reverse.dropWhile
          wsChar).reverse := by
    simp
  rw [hassoc2, splitOnChar_append '|' key _ hk_pipe,
      splitOnChar_append '|' status _ hs_pipe]

theorem lineParts_fields_getD (key status message osid wfid ts : List Char)
    (hk_pipe : ∀ c ∈ key, c ≠ '|') (hk_ws : key.dropWhile wsChar = key)
    (hs_pipe : ∀ c ∈ status, c ≠ '|') :
    (lineParts (key ++ '|' :: (status ++ '|' :: (message ++ '|' :: (osid ++
        '|' :: (wfid ++ '|' :: ts)))))).getD 0 [] = key ∧
    (lineParts (key ++ '|' :: (status ++ '|' :: (message ++ '|' :: (osid ++
        '|' :: (wfid ++ '|' :: ts)))))).getD 1 [] = status ∧
    3 ≤ (lineParts (key ++ '|' :: (status ++ '|' :: (message ++ '|' :: (osid ++
        '|' :: (wfid ++ '|' :: ts)))))).length := by
  obtain ⟨rest, hne, hparts⟩ :=
    lineParts_fields key status message osid wfid ts hk_pipe hk_ws hs_pipe
  rw [hparts]
  have : 0 < rest.length := List.length_pos.mpr hne
  refine ⟨rfl, rfl, ?_⟩
  simp only [List.length_cons]
  omega

theorem successKey_log_line (g s m : String) (o w : Option String) (t : String)
    (hk_pipe : ∀ c ∈ g.data, c ≠ '|') (hk_ws : g.data.dropWhile wsChar = g.data)
    (hs_pipe : ∀ c ∈ s.data, c ≠ '|') :
    successKey (log_result_line g s m o w t) =
      if s.data = kSUCCESS then some g.data else none := by
  obtain ⟨h0, h1, hlen⟩ := lineParts_fields_getD g.data s.data m.data
    (o.getD "").data (w.getD "").data t.data hk_pipe hk_ws hs_pipe
  unfold successKey log_result_line
  by_cases hs : s.data = kSUCCESS
  · rw [if_pos hs, if_pos ⟨hlen, by rw [h1, hs]⟩, h0]
  · rw [if_neg hs, if_neg]
    intro hcond
    rw [h1] at hcond
    exact hs hcond.2


/-- C10 (amended): for a log entry whose itemKey contains neither `'|'` nor a
newline nor leading whitespace, whose outcome contains neither `'|'` nor a
newline, and whose message contains no newline, the written line splits (after
the readers' strip) with the itemKey as field 0 and the outcome as field 1,
with at least 3 fields, so `load_uploaded_records` and `get_upload_stats`
classify the entry by its written key and outcome; absent remote and secondary
ids are written as the empty string. -/
theorem c10_log_line_roundtrip (geo outcome msg : String)
    (osid wfid : Option String) (ts : String)
    (hk : ∀ c ∈ geo.data, c ≠ '|' ∧ c ≠ '\n')
    (hkw : geo.data.dropWhile wsChar = geo.data)
    (ho : ∀ c ∈ outcome.data, c ≠ '|' ∧ c ≠ '\n')
    (hm : ∀ c ∈ msg.data, c ≠ '\n') :
    (lineParts (log_result_line geo outcome msg osid wfid ts)).getD 0 []
      = geo.data ∧
    (lineParts (log_result_line geo outcome msg osid wfid ts)).getD 1 []
      = outcome.data ∧
    3 ≤ (lineParts (log_result_line geo outcome msg osid wfid ts)).length ∧
    log_result_line geo outcome msg none none ts =
      geo.data ++ '|' :: (outcome.data ++ '|' :: (msg.data ++
        '|' :: ("".data ++ '|' :: ("".data ++ '|' :: ts.data)))) := by
  have h := lineParts_fields_getD geo.data outcome.data msg.data
    (osid.getD "").data (wfid.getD "").data ts.data
    (fun c hc => (hk c hc).1) hkw (fun c hc => (ho c hc).1)
  exact ⟨h.1, h.2.1, h.2.2, rfl⟩

/-- C10 counterexample: an itemKey with leading whitespace (but no `'|'` or
newline) is stripped before splitting, and an outcome containing `'|'` (but
no newline) is cut at the pipe, so the claim's stated conditions do not
guarantee the round trip. -/
theorem c10_roundtrip_counterexample :
    (∀ c ∈ (" k" : String).data, c ≠ '|' ∧ c ≠ '\n') ∧
    (∀ c ∈ ("SUCC|ESS" : String).data, c ≠ '\n') ∧
    (∀ c ∈ ("m" : String).data, c ≠ '\n') ∧
    (lineParts (log_result_line " k" "SUCC|ESS" "m" none none "t")).getD 0 []
      ≠ (" k" : String).data ∧
    (lineParts (log_result_line " k" "SUCC|ESS" "m" none none "t")).getD 1 []
      ≠ ("SUCC|ESS" : String).data := by
  decide

theorem c10_log_line_roundtrip_witness :
    (lineParts (log_result_line "A1" "SUCCESS" "Created" (some "o1") none tsW)).getD 0 []
      = ("A1" : String).data ∧
    (lineParts (log_result_line "A1" "SUCCESS" "Created" (some "o1") none tsW)).getD 1 []
      = ("SUCCESS" : String).data ∧
    3 ≤ (lineParts (log_result_line "A1" "SUCCESS" "Created" (some "o1") none tsW)).length ∧
    log_result_line "A1" "SUCCESS" "Created" none none tsW =
      ("A1" : String).data ++ '|' :: (("SUCCESS" : String).data ++
        '|' :: (("Created" : String).data ++ '|' :: ("".data ++
        '|' :: ("".data ++ '|' :: tsW.data)))) :=
  c10_log_line_roundtrip "A1" "SUCCESS" "Created" (some "o1") none tsW
    (by decide) (by decide) (by decide) (by decide)

/-- Unfolding of the completed-key filter. -/
theorem mem_df_to_upload (rows : List (Row × RecordEnv)) (file : List Char)
    (it : Row × RecordEnv) :
    it ∈ df_to_upload rows file ↔
      it ∈ rows ∧ it.1.geo_code.data ∉ load_uploaded_records file := by
  rw [df_to_upload, List.mem_filter]
  constructor
  · rintro ⟨h1, h2⟩
    refine ⟨h1, fun hmem => ?_⟩
    rw [← List.elem_iff] at hmem
    rw [show (load_uploaded_records file).contains it.1.geo_code.data
        = List.elem it.1.geo_code.data (load_uploaded_records file) from rfl,
      hmem] at h2
    simp at h2
  · rintro ⟨h1, h2⟩
    refine ⟨h1, ?_⟩
    have : List.elem it.1.geo_code.data (load_uploaded_records file) = false := by
      cases he : List.elem it.1.geo_code.data (load_uploaded_records file)
      · rfl
      · exact absurd (List.elem_iff.mp he) h2
    rw [show (load_uploaded_records file).contains it.1.geo_code.data
        = List.elem it.1.geo_code.data (load_uploaded_records file) from rfl,
      this]
    rfl

/-- C1: an itemKey with a logged SUCCESS entry is excluded by the
completed-key filter, so no record with that key is processed and no network
submission is made for it; an itemKey none of whose log lines parse as a
SUCCESS entry stays in the filtered record list, and is submitted whenever
its transform succeeds. -/
theorem c1_resume_idempotence (file : List Char)
    (rows : List (Row × RecordEnv)) (k : List Char) :
    (k ∈ load_uploaded_records file →
      (∀ it ∈ df_to_upload rows file, it.1.geo_code.data ≠ k) ∧
      (∀ g ∈ run_submission_keys rows file, g.data ≠ k)) ∧
    ((∀ l ∈ fileLines file, successKey l ≠ some k) →
      ∀ it ∈ rows, it.1.geo_code.data = k →
        it ∈ df_to_upload rows file ∧
        (∀ fac, it.2.transform = .ok fac →
          it.1.geo_code ∈ run_submission_keys rows file)) := by
  have hexcl : k ∈ load_uploaded_records file →
      ∀ it ∈ df_to_upload rows file, it.1.geo_code.data ≠ k := by
    intro hmem it hit hk
    exact ((mem_df_to_upload rows file it).mp hit).2 (hk ▸ hmem)
  constructor
  · intro hmem
    refine ⟨hexcl hmem, ?_⟩
    intro g hg hk
    rw [run_submission_keys, List.mem_filterMap] at hg
    obtain ⟨it, hit, hsome⟩ := hg
    have hkey : it.1.geo_code = g := by
      cases htr : it.2.transform with
      | ok fac =>
        rw [htr] at hsome
        exact Option.some_injective _ hsome
      | error m =>
        rw [htr] at hsome
        exact absurd hsome (by simp)
    exact hexcl hmem it hit (by rw [hkey, hk])
  · intro hno it hit hk
    have hnomem : k ∉ load_uploaded_records file := by
      intro hmem
      rw [load_uploaded_records, List.mem_filterMap] at hmem
      obtain ⟨l, hl, hsucc⟩ := hmem
      exact hno l hl hsucc
    have hdf : it ∈ df_to_upload rows file :=
      (mem_df_to_upload rows file it).mpr ⟨hit, by rw [hk]; exact hnomem⟩
    refine ⟨hdf, fun fac htr => ?_⟩
    rw [run_submission_keys, List.mem_filterMap]
    exact ⟨it, hdf, by rw [htr]⟩


theorem c1_resume_idempotence_witness :
    (∀ g ∈ run_submission_keys rowsW fileW, g.data ≠ ("A1" : String).data) ∧
    (rowB, envOkRec) ∈ df_to_upload rowsW fileW ∧
    ("B2" : String) ∈ run_submission_keys rowsW fileW := by
  refine ⟨((c1_resume_idempotence fileW rowsW ("A1" : String).data).1
    (by decide)).2, ?_⟩
  have h := (c1_resume_idempotence fileW rowsW ("B2" : String).data).2
    (by decide) (rowB, envOkRec)
    (List.mem_cons_of_mem _ (List.mem_cons_self _ _)) rfl
  exact ⟨h.1, h.2 pay0 rfl⟩

theorem bulk_upload_log_eq (items : List (Row × RecordEnv)) (file : List Char) :
    bulk_upload_log items file =
      file ++ (items.map fun it => record_entry it.1 it.2).flatten := by
  induction items generalizing file with
  | nil => simp [bulk_upload_log]
  | cons it its ih =>
    show bulk_upload_log its (file ++ record_entry it.1 it.2) = _
    rw [ih]
    simp

/-- C6: the `bulk_upload` loop appends exactly one log entry per processed
record, in order; a record whose transform fails contributes a FAILED
"Transform error" entry and makes no network submission, and a record whose
transform succeeds makes exactly one submission. -/
theorem c6_one_entry_per_record (items : List (Row × RecordEnv))
    (file : List Char) :
    (bulk_upload_log items file =
      file ++ (items.map fun it => record_entry it.1 it.2).flatten) ∧
    ((items.map fun it => record_entry it.1 it.2).length = items.length) ∧
    (∀ it ∈ items, ∀ m, it.2.transform = .error m →
      record_entry it.1 it.2 =
        log_result_line it.1.geo_code "FAILED" ("Transform error: " ++ m)
          none none it.2.timestamp ++ ['\n'] ∧
      record_submits it.2 = 0) ∧
    (∀ it ∈ items, ∀ fac, it.2.transform = .ok fac →
      record_submits it.2 = 1) := by
  refine ⟨bulk_upload_log_eq items file, List.length_map _ _, ?_, ?_⟩
  · intro it hit m htr
    constructor
    · unfold record_entry record_line
      rw [htr]
    · unfold record_submits
      rw [htr]
  · intro it hit fac htr
    unfold record_submits
    rw [htr]

theorem c6_one_entry_per_record_witness :
    (bulk_upload_log [(rowA, envBadRec)] [] =
      [] ++ ([(rowA, envBadRec)].map fun it => record_entry it.1 it.2).flatten) ∧
    (record_entry rowA envBadRec =
      log_result_line "A1" "FAILED" ("Transform error: " ++ "missing field lat")
        none none tsW ++ ['\n']) ∧
    record_submits envBadRec = 0 ∧
    record_submits envOkRec = 1 := by
  have h := c6_one_entry_per_record [(rowA, envBadRec)] []
  have h2 := h.2.2.1 (rowA, envBadRec) (List.mem_cons_self _ _)
    "missing field lat" rfl
  have h3 := (c6_one_entry_per_record [(rowA, envOkRec)] []).2.2.2
    (rowA, envOkRec) (List.mem_cons_self _ _) pay0 rfl
  exact ⟨h.1, h2.1, h2.2, h3⟩

/-- C8: when elapsed seconds is 0 the rate is 0; when the rate is 0 the ETA
(seconds and minutes) is 0; each division in the progress computation is
guarded by positivity of its divisor. -/
theorem c8_progress_degenerate (total idx elapsed rate : ℚ) :
    (elapsed = 0 → progress_rate idx elapsed = 0) ∧
    (rate = 0 → progress_eta_seconds total idx rate = 0 ∧
      progress_eta_minutes total idx rate = 0) ∧
    progress_eta_seconds total idx (progress_rate idx 0) = 0 ∧
    (0 < elapsed → progress_rate idx elapsed = idx / elapsed) ∧
    (0 < rate → progress_eta_seconds total idx rate = (total - idx) / rate) := by
  have h0 : progress_rate idx 0 = 0 := by simp [progress_rate]
  refine ⟨?_, ?_, ?_, ?_, ?_⟩
  · intro h
    subst h
    exact h0
  · intro h
    subst h
    exact ⟨by simp [progress_eta_seconds],
      by simp [progress_eta_minutes, progress_eta_seconds]⟩
  · rw [h0]
    simp [progress_eta_seconds]
  · intro h
    simp [progress_rate, h]
  · intro h
    simp [progress_eta_seconds, h]

theorem c8_progress_degenerate_witness :
    progress_rate 7 0 = 0 ∧ progress_eta_seconds 10 7 0 = 0 ∧
    progress_eta_minutes 10 7 0 = 0 ∧ progress_rate 10 2 = 5 := by
  have h := c8_progress_degenerate 10 7 0 0
  have h2 := h.2.1 rfl
  refine ⟨h.1 rfl, h2.1, h2.2, ?_⟩
  have h3 := (c8_progress_degenerate 10 10 2 0).2.2.2.1 (by norm_num)
  rw [h3]
  norm_num

theorem statsStep_foldl (lines : List (List Char)) (s : Stats) :
    lines.foldl statsStep s =
      ⟨s.success + countOutcome kSUCCESS lines,
       s.failed + countOutcome kFAILED lines,
       s.duplicate + countOutcome kDUPLICATE lines⟩ := by
  induction lines generalizing s with
  | nil => simp [countOutcome]
  | cons l ls ih =>
    rw [List.foldl_cons, ih]
    have hco : ∀ o, countOutcome o (l :: ls) = countOutcome o ls +
        (if 2 ≤ (lineParts l).length ∧ (lineParts l).getD 1 [] = o
         then 1 else 0) := by
      intro o
      unfold countOutcome
      rw [List.countP_cons]
      by_cases h : 2 ≤ (lineParts l).length ∧ (lineParts l).getD 1 [] = o
      · rw [if_pos h, if_pos (decide_eq_true h)]
      · rw [if_neg h, if_neg (by simpa using h)]
    rw [hco kSUCCESS, hco kFAILED, hco kDUPLICATE]
    simp only [statsStep]
    by_cases h2 : 2 ≤ (lineParts l).length
    · by_cases hS : (lineParts l).getD 1 [] = kSUCCESS
      · have hDc : ¬(2 ≤ (lineParts l).length ∧
            (lineParts l).getD 1 [] = kDUPLICATE) := by
          rintro ⟨-, hc⟩
          rw [hS] at hc
          exact absurd hc (by decide)
        have hFc : ¬(2 ≤ (lineParts l).length ∧
            (lineParts l).getD 1 [] = kFAILED) := by
          rintro ⟨-, hc⟩
          rw [hS] at hc
          exact absurd hc (by decide)
        rw [if_pos h2, if_pos hS, if_pos ⟨h2, hS⟩, if_neg hFc, if_neg hDc]
        simp only [Stats.mk.injEq]
        refine ⟨by omega, by omega, by omega⟩
      · by_cases hD : (lineParts l).getD 1 [] = kDUPLICATE
        · have hSc : ¬(2 ≤ (lineParts l).length ∧
              (lineParts l).getD 1 [] = kSUCCESS) := fun hc => hS hc.2
          have hFc : ¬(2 ≤ (lineParts l).length ∧
              (lineParts l).getD 1 [] = kFAILED) := by
            rintro ⟨-, hc⟩
            rw [hD] at hc
            exact absurd hc (by decide)
          rw [if_pos h2, if_neg hS, if_pos hD, if_neg hSc, if_neg hFc,
            if_pos ⟨h2, hD⟩]
          simp only [Stats.mk.injEq]
          refine ⟨by omega, by omega, by omega⟩
        · by_cases hF : (lineParts l).getD 1 [] = kFAILED
          · have hSc : ¬(2 ≤ (lineParts l).length ∧
                (lineParts l).getD 1 [] = kSUCCESS) := fun hc => hS hc.2
            have hDc : ¬(2 ≤ (lineParts l).length ∧
                (lineParts l).getD 1 [] = kDUPLICATE) := fun hc => hD hc.2
            rw [if_pos h2, if_neg hS, if_neg hD, if_pos hF, if_neg hSc,
              if_pos ⟨h2, hF⟩, if_neg hDc]
            simp only [Stats.mk.injEq]
            refine ⟨by omega, by omega, by omega⟩
          · have hSc : ¬(2 ≤ (lineParts l).length ∧
                (lineParts l).getD 1 [] = kSUCCESS) := fun hc => hS hc.2
            have hDc : ¬(2 ≤ (lineParts l).length ∧
                (lineParts l).getD 1 [] = kDUPLICATE) := fun hc => hD hc.2
            have hFc : ¬(2 ≤ (lineParts l).length ∧
                (lineParts l).getD 1 [] = kFAILED) := fun hc => hF hc.2
            rw [if_pos h2, if_neg hS, if_neg hD, if_neg hF, if_neg hSc,
              if_neg hFc, if_neg hDc]
            simp only [Stats.mk.injEq]
            refine ⟨by omega, by omega, by omega⟩
    · have hSc : ¬(2 ≤ (lineParts l).length ∧
          (lineParts l).getD 1 [] = kSUCCESS) := fun hc => h2 hc.1
      have hDc : ¬(2 ≤ (lineParts l).length ∧
          (lineParts l).getD 1 [] = kDUPLICATE) := fun hc => h2 hc.1
      have hFc : ¬(2 ≤ (lineParts l).length ∧
          (lineParts l).getD 1 [] = kFAILED) := fun hc => h2 hc.1
      rw [if_neg h2, if_neg hSc, if_neg hFc, if_neg hDc]
      simp only [Stats.mk.injEq]
      refine ⟨by omega, by omega, by omega⟩

theorem successKey_nil : successKey [] = none := by decide

theorem fileLines_joinNl (lines : List (List Char))
    (h : ∀ l ∈ lines, lineWf l) :
    fileLines (joinNl lines) = lines ++ [[]] := by
  induction lines with
  | nil => rfl
  | cons l ls ih =>
    unfold fileLines joinNl
    simp only [List.map_cons, List.flatten_cons]
    have hl : ∀ c ∈ l, c ≠ '\n' := h l (List.mem_cons_self _ _)
    have hstep : (l ++ ['\n']) ++ (ls.map fun x => x ++ ['\n']).flatten =
        l ++ '\n' :: (ls.map fun x => x ++ ['\n']).flatten := by simp
    rw [hstep, splitOnChar_append '\n' l _ hl]
    have ih' := ih fun x hx => h x (List.mem_cons_of_mem _ hx)
    unfold fileLines joinNl at ih'
    rw [ih']
    rfl

theorem load_uploaded_joinNl (lines : List (List Char))
    (h : ∀ l ∈ lines, lineWf l) :
    load_uploaded_records (joinNl lines) = lines.filterMap successKey := by
  unfold load_uploaded_records
  rw [fileLines_joinNl lines h, List.filterMap_append]
  simp [successKey_nil]

theorem record_status_mem (env : RecordEnv) :
    record_status env = "SUCCESS" ∨ record_status env = "DUPLICATE" ∨
      record_status env = "FAILED" := by
  unfold record_status
  cases h : env.transform with
  | error m => right; right; rfl
  | ok fac => exact go_status_mem env.attempts fac (max_retries - 0) 0

theorem successKey_record_line (r : Row) (env : RecordEnv)
    (hk : keyWf r.geo_code.data) :
    successKey (record_line r env) =
      if (record_status env).data = kSUCCESS then some r.geo_code.data
      else none := by
  have hkp : ∀ c ∈ r.geo_code.data, c ≠ '|' := fun c hc => (hk.1 c hc).1
  unfold record_line record_status
  cases h : env.transform with
  | error m =>
    rw [successKey_log_line r.geo_code "FAILED" _ _ _ _ hkp hk.2 (by decide)]
  | ok fac =>
    have hsp : ∀ c ∈ ((upload_facility env.attempts fac 0).res.status).data,
        c ≠ '|' := by
      rcases go_status_mem env.attempts fac (max_retries - 0) 0 with hs | hs | hs <;>
        · rw [show (upload_facility env.attempts fac 0).res.status =
            (upload_facility_go env.attempts fac 0 (max_retries - 0)).res.status
            from rfl, hs]
          decide
    rw [successKey_log_line r.geo_code _ _ _ _ _ hkp hk.2 hsp]

theorem apply_run_joinNl (lines : List (List Char))
    (run : List (Row × RecordEnv)) :
    apply_run (joinNl lines) run =
      joinNl (lines ++ (df_to_upload run (joinNl lines)).map
        fun it => record_line it.1 it.2) := by
  unfold apply_run
  rw [bulk_upload_log_eq]
  unfold joinNl
  rw [List.map_append, List.flatten_append, List.map_map]
  rfl

theorem countSucc_append (k : List Char) (a b : List (List Char)) :
    countSucc k (a ++ b) = countSucc k a + countSucc k b :=
  List.countP_append _ _ _

theorem countP_nodup_le_one (keys : List (List Char)) (h : keys.Nodup)
    (k : List Char) : keys.countP (fun a => decide (a = k)) ≤ 1 := by
  induction keys with
  | nil => simp
  | cons a as ih =>
    rcases List.nodup_cons.mp h with ⟨hna, hnd⟩
    rw [List.countP_cons]
    by_cases he : a = k
    · subst he
      have hz : as.countP (fun x => decide (x = a)) = 0 := by
        rw [List.countP_eq_zero]
        intro x hx hbx
        exact hna ((of_decide_eq_true hbx) ▸ hx)
      simp [hz]
    · simp [he, ih hnd]

theorem countSucc_new_le_one (lines : List (List Char))
    (run : List (Row × RecordEnv)) (hrun : run_items_ok run) (k : List Char) :
    countSucc k ((df_to_upload run (joinNl lines)).map
      fun it => record_line it.1 it.2) ≤ 1 := by
  unfold countSucc
  rw [List.countP_map]
  have h1 : ∀ it ∈ df_to_upload run (joinNl lines),
      ((fun l => successKey l == some k) ∘ fun it => record_line it.1 it.2) it
        = true →
      (fun it => decide (it.1.geo_code.data = k)) it = true := by
    intro it hit hsk
    have hkwf := (hrun.2 it ((mem_df_to_upload _ _ _).mp hit).1).1
    rw [Function.comp_apply, successKey_record_line it.1 it.2 hkwf] at hsk
    by_cases hc : (record_status it.2).data = kSUCCESS
    · rw [if_pos hc] at hsk
      have : it.1.geo_code.data = k := by simpa using hsk
      exact decide_eq_true this
    · rw [if_neg hc] at hsk
      simp at hsk
  have h2 := List.countP_mono_left h1
  have hsub : (df_to_upload run (joinNl lines)).Sublist run :=
    List.filter_sublist run
  have h3 := hsub.countP_le (fun it => decide (it.1.geo_code.data = k))
  have h4 : run.countP (fun it => decide (it.1.geo_code.data = k)) ≤ 1 := by
    have h5 := countP_nodup_le_one (run.map fun it => it.1.geo_code.data)
      hrun.1 k
    rwa [List.countP_map] at h5
  omega

theorem countSucc_new_zero (lines : List (List Char))
    (hwf : ∀ l ∈ lines, lineWf l) (run : List (Row × RecordEnv))
    (hrun : run_items_ok run) (k : List Char)
    (hk : 1 ≤ countSucc k lines) :
    countSucc k ((df_to_upload run (joinNl lines)).map
      fun it => record_line it.1 it.2) = 0 := by
  have hmem : k ∈ load_uploaded_records (joinNl lines) := by
    rw [load_uploaded_joinNl lines hwf]
    have hpos : 0 < lines.countP fun l => successKey l == some k := hk
    obtain ⟨l, hl, hp⟩ := List.countP_pos_iff.mp hpos
    rw [List.mem_filterMap]
    exact ⟨l, hl, by simpa using hp⟩
  unfold countSucc
  rw [List.countP_eq_zero]
  intro l hl
  rw [List.mem_map] at hl
  obtain ⟨it, hit, rfl⟩ := hl
  have hkwf := (hrun.2 it ((mem_df_to_upload _ _ _).mp hit).1).1
  have hne : it.1.geo_code.data ≠ k := fun he =>
    ((mem_df_to_upload _ _ _).mp hit).2 (he ▸ hmem)
  rw [successKey_record_line it.1 it.2 hkwf]
  by_cases hc : (record_status it.2).data = kSUCCESS
  · rw [if_pos hc]
    simp [hne]
  · rw [if_neg hc]
    simp

theorem history_aux (runs : List (List (Row × RecordEnv)))
    (hruns : ∀ run ∈ runs, run_items_ok run) :
    ∀ lines, (∀ l ∈ lines, lineWf l) → (∀ k, countSucc k lines ≤ 1) →
    ∃ lines', runs.foldl apply_run (joinNl lines) = joinNl lines' ∧
      (∀ l ∈ lines', lineWf l) ∧ ∀ k, countSucc k lines' ≤ 1 := by
  induction runs with
  | nil =>
    intro lines hwf hcnt
    exact ⟨lines, rfl, hwf, hcnt⟩
  | cons run rest ih =>
    intro lines hwf hcnt
    rw [List.foldl_cons, apply_run_joinNl]
    have hrun : run_items_ok run := hruns run (List.mem_cons_self _ _)
    apply ih (fun r hr => hruns r (List.mem_cons_of_mem _ hr))
    · intro l hl
      rw [List.mem_append] at hl
      rcases hl with h | h
      · exact hwf l h
      · rw [List.mem_map] at h
        obtain ⟨it, hit, rfl⟩ := h
        exact (hrun.2 it ((mem_df_to_upload _ _ _).mp hit).1).2
    · intro k
      rw [countSucc_append]
      by_cases hk : 1 ≤ countSucc k lines
      · rw [countSucc_new_zero lines hwf run hrun k hk]
        have := hcnt k
        omega
      · have h0 : countSucc k lines = 0 := by omega
        have h1 := countSucc_new_le_one lines run hrun k
        omega

/-- C7: `get_upload_stats` returns the outcome counts over every line of the
whole log file; and over any history of runs that each filter against the
completed keys (with per-run distinct, round-trippable keys), no itemKey
accumulates more than one SUCCESS entry. -/
theorem c7_cumulative_stats :
    (∀ file, get_upload_stats file =
      ⟨countOutcome kSUCCESS (fileLines file),
       countOutcome kFAILED (fileLines file),
       countOutcome kDUPLICATE (fileLines file)⟩) ∧
    (∀ runs, (∀ run ∈ runs, run_items_ok run) →
      ∀ k, countSucc k (fileLines (history_file runs)) ≤ 1) := by
  constructor
  · intro file
    unfold get_upload_stats
    rw [statsStep_foldl]
    simp
  · intro runs hruns k
    obtain ⟨lines', heq, hwf, hcnt⟩ := history_aux runs hruns []
      (by intro l hl; exact absurd hl (List.not_mem_nil l))
      (by intro k; simp [countSucc])
    unfold history_file
    rw [show ([] : List Char) = joinNl [] from rfl, heq,
      fileLines_joinNl lines' hwf, countSucc_append]
    have hnil : countSucc k [[]] = 0 := by
      simp [countSucc, successKey_nil]
    have := hcnt k
    omega

theorem c7_cumulative_stats_witness :
    (get_upload_stats fileW =
      ⟨countOutcome kSUCCESS (fileLines fileW),
       countOutcome kFAILED (fileLines fileW),
       countOutcome kDUPLICATE (fileLines fileW)⟩) ∧
    countSucc ("A1" : String).data (fileLines (history_file runsW7)) ≤ 1 :=
  ⟨c7_cumulative_stats.1 fileW,
   c7_cumulative_stats.2 runsW7 (by decide) ("A1" : String).data⟩

end BulkUpload
